import Mathlib

/-!
Shallow embedding of the gtv-retellai webhook service, translated from
`src/src/utils/informationExtractor.js` and
`src/src/controllers/webhookController.js`.

Conventions of the embedding:
* JS strings are Lean `String`; absent / non-string / `null` values are `none`
  of an `Option`.
* Character-level work is done with structurally recursive functions over
  `List Char` so that every definition evaluates inside the kernel.
* JS regular expressions are embedded through a small backtracking matcher
  (`mre`) over an explicit syntax tree `RE`; the matcher follows the JS
  semantics used by the source patterns: leftmost match, ordered alternation,
  greedy and lazy quantifiers over character classes, one capture group.
* The record store (supabase) is modelled as explicit state: maps from keys to
  rows.  The current date and the outcomes of external effects (notification
  dispatch, fallible store writes) are inputs of the step functions.
* JS floating point cost arithmetic is carried out in `ℚ`; no claim inspects
  the numeric value of `cost`.
-/

/-- JS whitespace class `\s` (the code points produced by the source data). -/
def jsWs (c : Char) : Bool :=
  c == ' ' || c == '\t' || c == '\n' || c == '\r' || c == '\x0b' || c == '\x0c'

/-- JS digit class `\d`. -/
def jsDigit (c : Char) : Bool :=
  '0' ≤ c && c ≤ '9'

/-- `phone.replace(/\D/g, '')` — keep only digits. -/
def stripNonDigits (s : String) : String :=
  String.mk (s.data.filter jsDigit)

/-- `transcript.includes(sub)` on char lists: `sub` occurs contiguously. -/
def containsSeq (sub : List Char) : List Char → Bool
  | [] => sub.isEmpty
  | c :: t => sub.isPrefixOf (c :: t) || containsSeq sub t

/-- JS `String.prototype.includes`. -/
def jsIncludes (s sub : String) : Bool :=
  containsSeq sub.data s.data

/-- JS `String.prototype.trim` on char lists. -/
def trimChars (l : List Char) : List Char :=
  ((l.dropWhile jsWs).reverse.dropWhile jsWs).reverse

/-- JS `String.prototype.trim`. -/
def jsTrim (s : String) : String :=
  String.mk (trimChars s.data)

/-- JS `s.split(' ')` (split on every single space, keeping empty pieces). -/
def splitSpaces : List Char → List (List Char)
  | [] => [[]]
  | c :: rest =>
    if c == ' ' then [] :: splitSpaces rest
    else
      match splitSpaces rest with
      | w :: ws => (c :: w) :: ws
      | [] => [[c]]

/-- JS `words.join(' ')`. -/
def joinSpace : List (List Char) → List Char
  | [] => []
  | [w] => w
  | w :: ws => w ++ ' ' :: joinSpace ws

/-- `replace(/\s+/g, ' ')` — collapse every whitespace run to one space. -/
def collapseWs : List Char → List Char
  | [] => []
  | [c] => if jsWs c then [' '] else [c]
  | c :: d :: rest =>
    if jsWs c && jsWs d then collapseWs (d :: rest)
    else (if jsWs c then ' ' else c) :: collapseWs (d :: rest)

/-- `transcript.toLowerCase().replace(/\s+/g, ' ')` (informationExtractor.js 22). -/
def normalizeText (t : String) : String :=
  String.mk (collapseWs (t.data.map Char.toLower))

/-- `name.charAt(0).toUpperCase() + name.slice(1)`. -/
def capFirst (s : String) : String :=
  match s.data with
  | [] => s
  | c :: rest => String.mk (c.toUpper :: rest)

/-- `name.split(' ').map(w => w.charAt(0).toUpperCase() + w.slice(1)).join(' ')`. -/
def capWords (s : String) : String :=
  String.mk (joinSpace ((splitSpaces s.data).map (fun w => (capFirst (String.mk w)).data)))

/-- `s.toLowerCase()`. -/
def lowerStr (s : String) : String :=
  String.mk (s.data.map Char.toLower)

/-- JS truthiness of an optional string: present and non-empty. -/
def isTruthy (o : Option String) : Bool :=
  match o with
  | some s => s ≠ ""
  | none => false

/-- `createCallSummary` (informationExtractor.js 53-68).  The `!reason` guard
is JS-falsy, so the empty string also yields the placeholder. -/
def createCallSummary (reason : Option String) : String :=
  match reason with
  | none => "Customer inquiry"
  | some r =>
    if r = "" then "Customer inquiry"
    else
      let words := (splitSpaces r.data).filter (fun w => w.length > 0)
      if words.length ≤ 10 then r
      else String.mk (joinSpace (words.take 10)) ++ "..."

/-- `formatPhoneNumber` (informationExtractor.js 274-286), branch for branch. -/
def formatPhoneNumber (phone : String) : String :=
  let cleaned := stripNonDigits phone
  if cleaned.length = 10 then "+1" ++ cleaned
  else if cleaned.length = 11 && cleaned.data.take 1 == ['1'] then "+" ++ cleaned
  else if cleaned.length = 11 then "+" ++ cleaned
  else "+" ++ cleaned

/-- `normalizePhoneNumber` (webhookController.js 332-348).  `!phoneNumber`
returns `null`, covering an absent value and the empty string. -/
def normalizePhoneNumber (phoneNumber : Option String) : Option String :=
  match phoneNumber with
  | none => none
  | some p =>
    if p = "" then none
    else
      let cleaned := stripNonDigits p
      if cleaned.length = 10 then some ("+1" ++ cleaned)
      else if cleaned.length = 11 && cleaned.data.take 1 == ['1'] then some ("+" ++ cleaned)
      else if cleaned.length = 11 then some ("+" ++ cleaned)
      else some ("+" ++ cleaned)

/-!  ## A small backtracking regex matcher

The informationExtractor.js patterns use only: literal alternations, the
classes `\s`, `\d`, `[a-z\s]`, `[\d\s\-()]`, `[^.]`, the quantifiers `\s*`,
`\s+`, lazy `+?`, greedy `+`, the anchor `$`, and a single capture group.
`RE` is the corresponding syntax tree; `mre` is a continuation-passing
matcher implementing the JS backtracking order (alternatives tried left to
right, greedy quantifiers prefer longer, lazy prefer shorter), and `reSearch`
scans for the leftmost match like `String.prototype.match`.  -/

/-- Regex syntax tree for the source patterns (one capture group). -/
inductive RE where
  | eps : RE
  | lit : String → RE
  | cls : (Char → Bool) → RE
  | alt2 : RE → RE → RE
  | seq2 : RE → RE → RE
  | starC : (Char → Bool) → RE
  | plusLz : (Char → Bool) → RE
  | eos : RE
  | group : RE → RE

/-- First-success choice on match results. -/
def orOpt {α : Type} : Option α → Option α → Option α
  | some x, _ => some x
  | none, b => b

/-- Greedy `p*` with continuation `k`, longer matches first. -/
def starClsG (p : Char → Bool) : List Char → (List Char → Option (Option (List Char))) → Option (Option (List Char))
  | [], k => k []
  | c :: rest, k =>
    if p c then orOpt (starClsG p rest k) (k (c :: rest))
    else k (c :: rest)

/-- Lazy `p+?` with continuation `k`, shorter matches first. -/
def plusClsL (p : Char → Bool) : List Char → (List Char → Option (Option (List Char))) → Option (Option (List Char))
  | [], _ => none
  | c :: rest, k =>
    if p c then orOpt (k rest) (plusClsL p rest k)
    else none

/-- Matcher: `mre r s k` matches `r` at the front of `s` and passes the rest
to `k`; the result is `some cap` on overall success, where `cap` is the text
of the capture group if one participated. -/
def mre : RE → List Char → (List Char → Option (Option (List Char))) → Option (Option (List Char))
  | .eps, s, k => k s
  | .lit l, s, k => if l.data.isPrefixOf s then k (s.drop l.length) else none
  | .cls p, s, k =>
    match s with
    | [] => none
    | c :: rest => if p c then k rest else none
  | .alt2 a b, s, k => orOpt (mre a s k) (mre b s k)
  | .seq2 a b, s, k => mre a s (fun s2 => mre b s2 k)
  | .starC p, s, k => starClsG p s k
  | .plusLz p, s, k => plusClsL p s k
  | .eos, s, k => if s.isEmpty then k s else none
  | .group r, s, k =>
    mre r s (fun s2 => (k s2).map (fun _ => some (s.take (s.length - s2.length))))

/-- Leftmost-match scan, like `String.prototype.match`. -/
def reSearch (r : RE) : List Char → Option (Option (List Char))
  | [] => mre r [] (fun _ => some none)
  | c :: rest => orOpt (mre r (c :: rest) (fun _ => some none)) (reSearch r rest)

/-- `transcript.match(re)` restricted to the first capture group: `some m`
when the pattern matches and group 1 captured `m`. -/
def jsMatch1 (r : RE) (s : String) : Option String :=
  match reSearch r s.data with
  | some (some c) => some (String.mk c)
  | some none => none
  | none => none

/-- Never-matching regex, the unit of alternation. -/
def failRE : RE := .cls (fun _ => false)

/-- Ordered n-ary alternation `(?:a|b|...)`. -/
def altN (rs : List RE) : RE := rs.foldr .alt2 failRE

/-- n-ary concatenation. -/
def seqN (rs : List RE) : RE := rs.foldr .seq2 .eps

/-- Alternation of literal phrases. -/
def litsAlt (ls : List String) : RE := altN (ls.map .lit)

/-- Greedy `p+` — one class character, then greedy star. -/
def plusC (p : Char → Bool) : RE := .seq2 (.cls p) (.starC p)

/-- Class `[a-z\s]` of the name patterns. -/
def nameCls (c : Char) : Bool := ('a' ≤ c && c ≤ 'z') || jsWs c

/-- Class `[\d\s\-\(\)]` of the phone patterns. -/
def phoneCls (c : Char) : Bool := jsDigit c || jsWs c || c == '-' || c == '(' || c == ')'

/-- Class `[^.]` — any character other than a period. -/
def notDot (c : Char) : Bool := !(c == '.')

/-- Terminator `(?:\s|,|\.|$)`. -/
def termSimple : RE := altN [.cls jsWs, .lit ",", .lit ".", .eos]

/-- Terminator `(?:\s+and|\s+but|\s+or|,|\.|$)` of the name patterns. -/
def termName : RE :=
  altN [seqN [plusC jsWs, .lit "and"], seqN [plusC jsWs, .lit "but"],
        seqN [plusC jsWs, .lit "or"], .lit ",", .lit ".", .eos]

/-!  ## Field extractors (informationExtractor.js) -/

/-- `/(?:information:)\s+([a-z\s]+?)(?:\s|,|\.|$)/i` (line 77). -/
def confirmationNameRE : RE :=
  seqN [.lit "information:", plusC jsWs, .group (.plusLz nameCls), termSimple]

/-- The four `namePatterns` (lines 86-91). -/
def namePatterns : List RE :=
  [ seqN [litsAlt ["my name is", "i\x27m", "i am", "this is", "call me"],
          plusC jsWs, .group (.plusLz nameCls), termName],
    seqN [litsAlt ["name is", "call me"],
          plusC jsWs, .group (.plusLz nameCls), termName],
    seqN [litsAlt ["i\x27m", "i am"],
          plusC jsWs, .group (.plusLz nameCls), termName],
    seqN [litsAlt ["my name is"],
          plusC jsWs, .group (.plusLz nameCls), termName] ]

/-- Stopword list of the name pattern loop (line 98). -/
def nameStopwords : List String := ["the", "and", "but", "for", "with", "is", "a"]

/-- `/name\s+([^.]+?)(?:\s|,|\.|$)/i` (line 109). -/
def nameFallbackRE : RE :=
  seqN [.lit "name", plusC jsWs, .group (.plusLz notDot), termSimple]

/-- The pattern loop of `extractName` (lines 93-106). -/
def nameFromPatterns : List RE → String → Option String
  | [], _ => none
  | p :: ps, t =>
    match jsMatch1 p t with
    | some m1 =>
      if m1 ≠ "" then
        let name := jsTrim m1
        if name.length > 2 && !(nameStopwords.contains (lowerStr name)) then
          some (capWords name)
        else nameFromPatterns ps t
      else nameFromPatterns ps t
    | none => nameFromPatterns ps t

/-- The fallback clause of `extractName` (lines 109-118). -/
def nameFallback (t : String) : Option String :=
  match jsMatch1 nameFallbackRE t with
  | some m1 =>
    if m1 ≠ "" then
      let name := jsTrim m1
      if name.length > 2 then some (capWords name) else none
    else none
  | none => none

/-- `extractName` (informationExtractor.js 75-121). -/
def extractName (t : String) : Option String :=
  let conf :=
    match jsMatch1 confirmationNameRE t with
    | some m1 =>
      if m1 ≠ "" then
        let name := jsTrim m1
        if name.length > 2 then some (capFirst name) else none
      else none
    | none => none
  match conf with
  | some n => some n
  | none =>
    match nameFromPatterns namePatterns t with
    | some n => some n
    | none => nameFallback t

/-- The three `phonePatterns` (lines 129-133): intent phrases, then
`\s*([\d\s\-\(\)]+)`. -/
def phonePatterns : List RE :=
  [ seqN [litsAlt ["my number is", "phone number is", "call me at", "reach me at", "my phone is"],
          .starC jsWs, .group (plusC phoneCls)],
    seqN [litsAlt ["number is", "phone is", "call me at"],
          .starC jsWs, .group (plusC phoneCls)],
    seqN [litsAlt ["it\x27s", "it is"],
          .starC jsWs, .group (plusC phoneCls)] ]

/-- The pattern loop of `extractPhoneNumber` (lines 135-144). -/
def phoneFromPatterns : List RE → String → Option String
  | [], _ => none
  | p :: ps, t =>
    match jsMatch1 p t with
    | some m1 =>
      if m1 ≠ "" then
        let phone := stripNonDigits m1
        if 7 ≤ phone.length && phone.length ≤ 15 then some (formatPhoneNumber phone)
        else phoneFromPatterns ps t
      else phoneFromPatterns ps t
    | none => phoneFromPatterns ps t

/-- `extractPhoneNumber` (informationExtractor.js 128-147). -/
def extractPhoneNumber (t : String) : Option String :=
  phoneFromPatterns phonePatterns t

/-- The four `addressPatterns` (lines 156-161). -/
def addressPatterns : List RE :=
  [ seqN [litsAlt ["i live at", "my address is", "located at", "address is"],
          plusC jsWs, .group (.plusLz notDot), termSimple],
    seqN [litsAlt ["live at"], plusC jsWs, .group (.plusLz notDot), termSimple],
    seqN [litsAlt ["address"], plusC jsWs, .group (.plusLz notDot), termSimple],
    seqN [litsAlt ["at"], plusC jsWs, .group (.plusLz notDot), termSimple] ]

/-- Stopword list of the address pattern loop (line 168). -/
def addressStopwords : List String := ["the", "and", "but", "for", "with"]

/-- The pattern loop of `extractAddress` (lines 163-172). -/
def addressFromPatterns : List RE → String → Option String
  | [], _ => none
  | p :: ps, t =>
    match jsMatch1 p t with
    | some m1 =>
      if m1 ≠ "" then
        let address := jsTrim m1
        if address.length > 5 && !(addressStopwords.contains (lowerStr address)) then
          some (capFirst address)
        else addressFromPatterns ps t
      else addressFromPatterns ps t
    | none => addressFromPatterns ps t

/-- `/address\s+([^.]+?)(?:\s|,|\.|$)/i` (line 175). -/
def addressConfirmationRE : RE :=
  seqN [.lit "address", plusC jsWs, .group (.plusLz notDot), termSimple]

/-- `/(?:street|avenue|road|drive|lane|way|blvd|st|ave|rd|dr|ln|blvd)\s+...` (line 184). -/
def streetRE : RE :=
  seqN [litsAlt ["street", "avenue", "road", "drive", "lane", "way", "blvd",
                 "st", "ave", "rd", "dr", "ln", "blvd"],
        plusC jsWs, .group (.plusLz notDot), termSimple]

/-- A `match` clause accepting a trimmed capture longer than `n` characters,
returning it capitalized (shared shape of the fallback clauses). -/
def captureLongerThan (r : RE) (n : Nat) (t : String) : Option String :=
  match jsMatch1 r t with
  | some m1 =>
    if m1 ≠ "" then
      let v := jsTrim m1
      if v.length > n then some (capFirst v) else none
    else none
  | none => none

/-- `extractAddress` (informationExtractor.js 154-193). -/
def extractAddress (t : String) : Option String :=
  match addressFromPatterns addressPatterns t with
  | some a => some a
  | none =>
    match captureLongerThan addressConfirmationRE 5 t with
    | some a => some a
    | none => captureLongerThan streetRE 5 t

/-- The five `servicePatterns` (lines 217-223): intent phrases, then
`\s*([^.]+?)(?:\s|,|\.|$)`. -/
def servicePatterns : List RE :=
  [ seqN [litsAlt ["calling about", "need help with", "reason for calling",
                   "i need", "looking for", "want to"],
          .starC jsWs, .group (.plusLz notDot), termSimple],
    seqN [litsAlt ["need", "want", "help with"],
          .starC jsWs, .group (.plusLz notDot), termSimple],
    seqN [litsAlt ["because", "since"],
          .starC jsWs, .group (.plusLz notDot), termSimple],
    seqN [litsAlt ["about", "regarding"],
          .starC jsWs, .group (.plusLz notDot), termSimple],
    seqN [litsAlt ["schedule", "book", "appointment"],
          .starC jsWs, .group (.plusLz notDot), termSimple] ]

/-- The pattern loop of `extractReason` (lines 225-234). -/
def reasonFromPatterns : List RE → String → Option String
  | [], _ => none
  | p :: ps, t =>
    match jsMatch1 p t with
    | some m1 =>
      if m1 ≠ "" then
        let reason := jsTrim m1
        if reason.length > 3 then some (capFirst reason)
        else reasonFromPatterns ps t
      else reasonFromPatterns ps t
    | none => reasonFromPatterns ps t

/-- The fixed service vocabulary (lines 237-240). -/
def businessServices : List String :=
  ["plumbing", "hvac", "electrical", "tree removal", "landscaping",
   "cleaning", "repair", "maintenance", "installation", "inspection"]

/-- The service vocabulary scan (lines 242-255). -/
def reasonFromServices : List String → String → Option String
  | [], _ => none
  | s :: ss, t =>
    if jsIncludes t s then
      if jsIncludes t "maintenance" || jsIncludes t "routine" then
        some (capFirst s ++ " maintenance")
      else if jsIncludes t "repair" || jsIncludes t "fix" then
        some (capFirst s ++ " repair")
      else if jsIncludes t "installation" || jsIncludes t "install" then
        some (capFirst s ++ " installation")
      else some (capFirst s ++ " service")
    else reasonFromServices ss t

/-- `/(?:reason|need)\s+([^.]+?)(?:\s|,|\.|$)/i` (line 258). -/
def reasonFallbackRE : RE :=
  seqN [litsAlt ["reason", "need"], plusC jsWs, .group (.plusLz notDot), termSimple]

/-- `extractReason` (informationExtractor.js 200-267). -/
def extractReason (t : String) : Option String :=
  if jsIncludes t "emergency" || jsIncludes t "urgent" || jsIncludes t "storm" then
    if jsIncludes t "plumbing" || jsIncludes t "sink" || jsIncludes t "water" then
      some "Emergency plumbing service"
    else if jsIncludes t "tree" || jsIncludes t "branch" then
      some "Emergency tree removal"
    else if jsIncludes t "electrical" || jsIncludes t "power" then
      some "Emergency electrical service"
    else some "Emergency service request"
  else
    match reasonFromPatterns servicePatterns t with
    | some r => some r
    | none =>
      match reasonFromServices businessServices t with
      | some r => some r
      | none => captureLongerThan reasonFallbackRE 3 t

/-- Result shape of `extractCallInformation`. -/
structure ExtractedInfo where
  name : Option String
  callback_number : Option String
  address : Option String
  reason : Option String
  call_summary : Option String
deriving Repr, DecidableEq

/-- The all-null extraction result (guard branch, lines 11-19). -/
def allNullInfo : ExtractedInfo :=
  { name := none, callback_number := none, address := none,
    reason := none, call_summary := none }

/-- `extractCallInformation` (informationExtractor.js 10-46).  The input is
an `Option String`: `none` stands for an absent or non-string value. -/
def extractCallInformation (transcript : Option String) : ExtractedInfo :=
  match transcript with
  | none => allNullInfo
  | some t =>
    if t = "" then allNullInfo
    else
      let clean := normalizeText t
      let name := extractName clean
      let callback_number := extractPhoneNumber clean
      let address := extractAddress clean
      let reason := extractReason clean
      let call_summary := createCallSummary reason
      { name := name, callback_number := callback_number, address := address,
        reason := reason, call_summary := some call_summary }

/-!  ## Call lifecycle reconciler (webhookController.js)

The supabase store is explicit state: `calls` maps a call id to its row,
`analytics` maps `(business_id, date)` to the daily counter row.  The current
date and the outcomes of external effects are inputs (`Env`): `notifSuccess`
is `sendAllNotifications(...).overall.success`, `notifWriteOk` and
`analyticsWriteOk` say whether the corresponding fallible store writes
succeed.  Fallible store writes that the code merely logs are modelled by
`Except` values whose error branch is caught exactly where the code catches. -/

/-- The business row fields the controller reads. -/
structure Business where
  id : String
  phone_number : String
  is_active : Bool
deriving Repr, DecidableEq

/-- The inbound webhook payload fields the controller reads. -/
structure WebhookEvent where
  call_id : String
  event_type : Option String
  call_status : Option String
  to_number : Option String
  from_number : Option String
  transcript : Option String
  transcript_text : Option String
  conversation : Option String
  call_summary : Option String
  summary : Option String
  recording_url : Option String
  call_duration : Option Nat
deriving Repr, DecidableEq

/-- A `calls` table row. -/
structure CallRecord where
  id : String
  business_id : String
  caller_name : Option String
  callback_number : Option String
  address : Option String
  reason : Option String
  call_summary : Option String
  recording_url : Option String
  transcript_text : Option String
  duration : Nat
  call_status : Option String
  from_number : Option String
  to_number : Option String
  cost : ℚ
  notification_sent : Bool
deriving Repr, DecidableEq

/-- A `call_analytics` table row. -/
structure AnalyticsRow where
  business_id : String
  date : String
  total_calls : Nat
  successful_notifications : Nat
  failed_notifications : Nat
deriving Repr, DecidableEq

/-- The store state. -/
structure DB where
  businesses : List Business
  calls : String → Option CallRecord
  analytics : String × String → Option AnalyticsRow

/-- Environment of one event-processing task: current date and the outcomes
of the external effects it may perform. -/
structure Env where
  today : String
  notifSuccess : Bool
  notifWriteOk : Bool
  analyticsWriteOk : Bool
deriving Repr, DecidableEq

/-- `a || b || c || d || e` over optional strings (first truthy). -/
def firstTruthy : List (Option String) → Option String
  | [] => none
  | some s :: rest => if s = "" then firstTruthy rest else some s
  | none :: rest => firstTruthy rest

/-- The transcript-field fallback chain (webhookController.js 158-162,
229-233, 361-365). -/
def getTranscriptText (w : WebhookEvent) : Option String :=
  firstTruthy [w.transcript, w.transcript_text, w.conversation, w.call_summary, w.summary]

/-- The `callData` object built in `createOrUpdateCall` (lines 367-382). -/
structure CallData where
  business_id : String
  caller_name : Option String
  callback_number : Option String
  address : Option String
  reason : Option String
  call_summary : Option String
  recording_url : Option String
  transcript_text : Option String
  duration : Nat
  call_status : Option String
  from_number : Option String
  to_number : Option String
  cost : ℚ
deriving Repr, DecidableEq

/-- Builds `callData` (lines 367-382): `duration` is `call_duration || 0`,
`cost` is `(call_duration / 60) * 0.091` when `call_duration` is truthy. -/
def mkCallData (w : WebhookEvent) (businessId : String) (info : ExtractedInfo)
    (callStatus : Option String) : CallData :=
  { business_id := businessId,
    caller_name := info.name,
    callback_number := info.callback_number,
    address := info.address,
    reason := info.reason,
    call_summary := info.call_summary,
    recording_url := w.recording_url,
    transcript_text := getTranscriptText w,
    duration := w.call_duration.getD 0,
    call_status := callStatus,
    from_number := w.from_number,
    to_number := w.to_number,
    cost :=
      match w.call_duration with
      | some d => if d = 0 then 0 else ((d : ℚ) / 60) * (91 / 1000)
      | none => 0 }

/-- The update branch of `createOrUpdateCall`: overwrite every `callData`
column, keep `id` and `notification_sent`. -/
def applyCallData (c : CallRecord) (cd : CallData) : CallRecord :=
  { c with
    business_id := cd.business_id, caller_name := cd.caller_name,
    callback_number := cd.callback_number, address := cd.address,
    reason := cd.reason, call_summary := cd.call_summary,
    recording_url := cd.recording_url, transcript_text := cd.transcript_text,
    duration := cd.duration, call_status := cd.call_status,
    from_number := cd.from_number, to_number := cd.to_number, cost := cd.cost }

/-- The insert branch of `createOrUpdateCall`: a fresh row with the webhook
call id; `notification_sent` takes the schema default `false`. -/
def newCallRecord (callId : String) (cd : CallData) : CallRecord :=
  { id := callId,
    business_id := cd.business_id, caller_name := cd.caller_name,
    callback_number := cd.callback_number, address := cd.address,
    reason := cd.reason, call_summary := cd.call_summary,
    recording_url := cd.recording_url, transcript_text := cd.transcript_text,
    duration := cd.duration, call_status := cd.call_status,
    from_number := cd.from_number, to_number := cd.to_number, cost := cd.cost,
    notification_sent := false }

/-- `.single()`: a row only when the result set has exactly one row. -/
def singleRow {α : Type} : List α → Option α
  | [b] => some b
  | _ => none

/-- `findBusinessByPhoneNumber` (webhookController.js 291-325): lookup by
normalized phone with `is_active = true`; `.single()` demands exactly one
row, every error path returns `null`. -/
def findBusinessByPhoneNumber (db : DB) (phoneNumber : Option String) : Option Business :=
  match normalizePhoneNumber phoneNumber with
  | none => none
  | some np => singleRow (db.businesses.filter (fun b => b.phone_number == np && b.is_active))

/-- `createOrUpdateCall` (webhookController.js 358-436): fetch by call id,
update if found, insert otherwise; returns the written row. -/
def createOrUpdateCall (db : DB) (w : WebhookEvent) (businessId : String)
    (info : ExtractedInfo) (callStatus : Option String) : CallRecord × DB :=
  let cd := mkCallData w businessId info callStatus
  match db.calls w.call_id with
  | some existing =>
    let updated := applyCallData existing cd
    (updated, { db with calls := fun i => if i = w.call_id then some updated else db.calls i })
  | none =>
    let created := newCallRecord w.call_id cd
    (created, { db with calls := fun i => if i = w.call_id then some created else db.calls i })

/-- `updateCallStatus` (webhookController.js 444-466): update the status
column of the row with the given id; `.single()` on a missing row is an
error, which this function rethrows. -/
def updateCallStatus (db : DB) (callId : String) (status : String) :
    Except String (CallRecord × DB) :=
  match db.calls callId with
  | none => .error "Failed to update call status"
  | some c =>
    let c2 := { c with call_status := some status }
    .ok (c2, { db with calls := fun i => if i = callId then some c2 else db.calls i })

/-- The raw `notification_sent` store write, succeeding or failing according
to the environment flag. -/
def notificationWrite (writeOk : Bool) (db : DB) (callId : String) (sent : Bool) :
    Except String DB :=
  if writeOk then
    .ok { db with calls := fun i =>
            if i = callId then (db.calls i).map (fun c => { c with notification_sent := sent })
            else db.calls i }
  else .error "supabase error"

/-- `updateCallNotificationStatus` (webhookController.js 474-493): a store
error is only logged — the function returns normally either way. -/
def updateCallNotificationStatus (writeOk : Bool) (db : DB) (callId : String)
    (notificationSent : Bool) : Except String DB :=
  match notificationWrite writeOk db callId notificationSent with
  | .ok db2 => .ok db2
  | .error _ => .ok db

/-- `updateCallAnalytics` (webhookController.js 502-566): fetch the
`(business_id, today)` row; on an existing row set `total_calls + 1` and, for
event type `completed`, `successful_notifications + 1` (the `started` branch
re-assigns the same `total_calls + 1`); otherwise insert a fresh row.  Store
errors are only logged, so the function returns normally on every path.  The
`callCompleted` parameter is unused by the source body. -/
def updateCallAnalytics (writeOk : Bool) (today : String) (db : DB)
    (businessId : String) ( _callCompleted : Bool) (eventType : Option String) :
    Except String DB :=
  match db.analytics (businessId, today) with
  | some row =>
    let updated :=
      { row with
        total_calls := row.total_calls + 1,
        successful_notifications :=
          if eventType = some "completed" then row.successful_notifications + 1
          else row.successful_notifications }
    if writeOk then
      .ok { db with analytics := fun k =>
              if k = (businessId, today) then some updated else db.analytics k }
    else .ok db
  | none =>
    let created : AnalyticsRow :=
      { business_id := businessId, date := today,
        total_calls := 1,
        successful_notifications := if eventType = some "completed" then 1 else 0,
        failed_notifications := if eventType = some "completed" then 0 else 1 }
    if writeOk then
      .ok { db with analytics := fun k =>
              if k = (businessId, today) then some created else db.analytics k }
    else .ok db

/-- Runs an internally-caught store operation; the fallback state is never
used because such operations only return `.ok`. -/
def runOk (fallback : DB) : Except String DB → DB
  | .ok d => d
  | .error _ => fallback

/-- `handleCallStarted` (webhookController.js 77-105): upsert with an empty
extraction and status `in-progress`, then analytics with event type
`started`. -/
def handleCallStarted (env : Env) (db : DB) (w : WebhookEvent) (b : Business) :
    CallRecord × DB :=
  let r := createOrUpdateCall db w b.id allNullInfo (some "in-progress")
  (r.1, runOk r.2 (updateCallAnalytics env.analyticsWriteOk env.today r.2 b.id false (some "started")))

/-- `handleCallEnded` (webhookController.js 113-141): status-only update to
`completed`, then analytics with event type `completed`; a failing status
update is rethrown. -/
def handleCallEnded (env : Env) (db : DB) (w : WebhookEvent) (b : Business) :
    Except String (CallRecord × DB) :=
  match updateCallStatus db w.call_id "completed" with
  | .error e => .error e
  | .ok rd =>
    .ok (rd.1, runOk rd.2 (updateCallAnalytics env.analyticsWriteOk env.today rd.2 b.id true (some "completed")))

/-- The extraction step of `handleCallAnalyzed` (lines 157-179): run the
extraction engine on the first transcript-bearing field, else an empty
object. -/
def analyzedInfo (w : WebhookEvent) : ExtractedInfo :=
  match getTranscriptText w with
  | some t => extractCallInformation (some t)
  | none => allNullInfo

/-- `handleCallAnalyzed` (webhookController.js 149-210): upsert with the
extraction and status `completed`; when a `call_summary` was derived,
dispatch notifications and record the outcome.  (The source calls no
analytics update here.) -/
def handleCallAnalyzed (env : Env) (db : DB) (w : WebhookEvent) (b : Business) :
    CallRecord × DB :=
  let info := analyzedInfo w
  let r := createOrUpdateCall db w b.id info (some "completed")
  if isTruthy info.call_summary then
    (r.1, runOk r.2 (updateCallNotificationStatus env.notifWriteOk r.2 r.1.id env.notifSuccess))
  else (r.1, r.2)

/-- `handleLegacyWebhook` (webhookController.js 218-284): extraction only for
a completed status with a transcript; upsert with the payload status;
notifications only for completed; analytics with no event type argument. -/
def handleLegacyWebhook (env : Env) (db : DB) (w : WebhookEvent) (b : Business) :
    CallRecord × DB :=
  let transcriptText := getTranscriptText w
  let info :=
    if w.call_status == some "completed" && transcriptText.isSome then
      extractCallInformation transcriptText
    else allNullInfo
  let r := createOrUpdateCall db w b.id info w.call_status
  let db2 :=
    if w.call_status == some "completed" then
      runOk r.2 (updateCallNotificationStatus env.notifWriteOk r.2 r.1.id env.notifSuccess)
    else r.2
  (r.1, runOk db2 (updateCallAnalytics env.analyticsWriteOk env.today db2 b.id
                     (w.call_status == some "completed") none))

/-- `handleRetellWebhook` (webhookController.js 16-69): resolve the business
from the `to` number, dispatch on `event_type` (anything else is legacy).  A
resolution failure is thrown before any write; the catch block only logs, so
the state is returned unchanged with the failure. -/
def handleRetellWebhook (env : Env) (db : DB) (w : WebhookEvent) :
    Except String CallRecord × DB :=
  match findBusinessByPhoneNumber db w.to_number with
  | none => (.error "Business not found for phone number", db)
  | some b =>
    match w.event_type with
    | some "call_started" =>
      let r := handleCallStarted env db w b
      (.ok r.1, r.2)
    | some "call_ended" =>
      match handleCallEnded env db w b with
      | .ok rd => (.ok rd.1, rd.2)
      | .error e => (.error e, db)
    | some "call_analyzed" =>
      let r := handleCallAnalyzed env db w b
      (.ok r.1, r.2)
    | _ =>
      let r := handleLegacyWebhook env db w b
      (.ok r.1, r.2)

/-- Success test of an event-processing result. -/
def exceptOk {α : Type} : Except String α → Bool
  | .ok _ => true
  | .error _ => false

/-!  ## Concrete fixtures for counterexamples and witnesses -/

/-- An active business whose line is +15551234567. -/
def biz0 : Business := { id := "b1", phone_number := "+15551234567", is_active := true }

/-- Environment: fixed date, all external effects succeed. -/
def env0 : Env :=
  { today := "2026-01-01", notifSuccess := true, notifWriteOk := true, analyticsWriteOk := true }

/-- Empty store. -/
def dbEmpty : DB := { businesses := [], calls := fun _ => none, analytics := fun _ => none }

/-- A webhook payload carrying only a call id, an event type and a `to`
number. -/
def mkBareEvent (cid : String) (et : Option String) (toNum : Option String) : WebhookEvent :=
  { call_id := cid, event_type := et, call_status := none, to_number := toNum,
    from_number := none, transcript := none, transcript_text := none,
    conversation := none, call_summary := none, summary := none,
    recording_url := none, call_duration := none }

/-!  ## C4 — phone normalization vs phone formatting -/

/-- The canonical formatting as the spec words it: strip non-digits, prefix
`+1` when 10 digits remain, else prefix `+`. -/
def specPhoneFormat (s : String) : String :=
  let d := stripNonDigits s
  if d.length = 10 then "+1" ++ d else "+" ++ d

/-- C4 counterexample: on the empty string the two functions disagree —
`normalizePhoneNumber` hits its JS-falsy guard and yields `null`, while
`formatPhoneNumber` yields `"+"`. -/
theorem C4_counterexample :
    normalizePhoneNumber (some "") = none
    ∧ formatPhoneNumber "" = "+"
    ∧ normalizePhoneNumber (some "") ≠ some (formatPhoneNumber "") := by
  refine ⟨rfl, by decide, by decide⟩

/-- C4 (amended): for every non-empty string the two functions agree, and
both equal the strip-and-prefix formatting of the spec. -/
theorem C4_phone_agree_nonempty (s : String) (h : s ≠ "") :
    normalizePhoneNumber (some s) = some (formatPhoneNumber s)
    ∧ formatPhoneNumber s = specPhoneFormat s := by
  simp only [normalizePhoneNumber, formatPhoneNumber, specPhoneFormat, h,
    if_neg (fun hh => h hh)]
  constructor
  · split_ifs <;> simp_all
  · split_ifs <;> simp_all

/-- C4 witness: the amended statement at the concrete input
`"(555) 123-4567"`. -/
theorem C4_witness :
    normalizePhoneNumber (some "(555) 123-4567") = some (formatPhoneNumber "(555) 123-4567")
    ∧ formatPhoneNumber "(555) 123-4567" = specPhoneFormat "(555) 123-4567" :=
  C4_phone_agree_nonempty "(555) 123-4567" (by decide)

/-!  ## C6 — emergency + water short-circuit -/

/-- C6: any transcript containing both `emergency` and `water` gets reason
`Emergency plumbing service`; the branch structure consults no later
strategy. -/
theorem C6_emergency_water (t : String)
    (h1 : jsIncludes t "emergency" = true) (h2 : jsIncludes t "water" = true) :
    extractReason t = some "Emergency plumbing service" := by
  unfold extractReason
  rw [h1, h2]
  simp

/-- C6 witness: a transcript that also mentions the service keywords `hvac`
and `repair` still maps to the fixed emergency phrase. -/
theorem C6_witness :
    jsIncludes "emergency water heater hvac repair" "emergency" = true
    ∧ jsIncludes "emergency water heater hvac repair" "water" = true
    ∧ extractReason "emergency water heater hvac repair" = some "Emergency plumbing service" :=
  ⟨by decide, by decide, C6_emergency_water _ (by decide) (by decide)⟩

/-!  ## C8 — summary builder -/

/-- The word list as the claim words it: split on whitespace (any `\s`
character), dropping empty pieces. -/
def claimWsWords (s : String) : List (List Char) :=
  (splitSpaces (s.data.map (fun c => if jsWs c then ' ' else c))).filter
    (fun w => w.length > 0)

/-- C8 counterexample: the code splits on the space character only and
treats the empty reason as absent — a tab-separated pair counts as one word,
so an 11-whitespace-word reason is returned unchanged instead of truncated,
and the empty reason maps to the placeholder instead of itself. -/
theorem C8_counterexample :
    createCallSummary (some "") = "Customer inquiry"
    ∧ createCallSummary (some "a\tb c d e f g h i j k") = "a\tb c d e f g h i j k"
    ∧ (claimWsWords "a\tb c d e f g h i j k").length = 11
    ∧ createCallSummary (some "a\tb c d e f g h i j k")
        ≠ String.mk (joinSpace ((claimWsWords "a\tb c d e f g h i j k").take 10)) ++ "..." := by
  refine ⟨rfl, by decide, by decide, by decide⟩

/-- C8 (amended): null, absent or empty reasons map to the placeholder; for
non-empty reasons the word list is the space-split, empty-dropped token list:
at most 10 words are returned unchanged, more are truncated to the first 10
words joined by single spaces plus `...` — as on a concrete 15-word
reason. -/
theorem C8_summary_characterization (r : String) (h : r ≠ "") :
    createCallSummary none = "Customer inquiry"
    ∧ createCallSummary (some "") = "Customer inquiry"
    ∧ (((splitSpaces r.data).filter (fun w => w.length > 0)).length ≤ 10 →
        createCallSummary (some r) = r)
    ∧ (10 < ((splitSpaces r.data).filter (fun w => w.length > 0)).length →
        createCallSummary (some r) =
          String.mk (joinSpace (((splitSpaces r.data).filter (fun w => w.length > 0)).take 10)) ++ "...")
    ∧ createCallSummary
        (some "one two three four five six seven eight nine ten eleven twelve thirteen fourteen fifteen")
        = "one two three four five six seven eight nine ten..." := by
  refine ⟨rfl, rfl, ?_, ?_, by decide⟩
  · intro hw
    simp only [createCallSummary, if_neg (fun hh => h hh), if_pos hw]
  · intro hw
    simp only [createCallSummary, if_neg (fun hh => h hh)]
    rw [if_neg (not_le.mpr hw)]

/-- C8 witness: the amended statement applied at a short concrete reason. -/
theorem C8_witness : createCallSummary (some "clogged drain") = "clogged drain" :=
  (C8_summary_characterization "clogged drain" (by decide)).2.2.1 (by decide)

/-!  ## C5 — business resolution failure is terminal and mutation-free -/

/-- A singleton filter result satisfies the filter predicate. -/
theorem filter_eq_single_pred {α : Type} (p : α → Bool) (l : List α) (b : α)
    (h : l.filter p = [b]) : p b = true := by
  have hmem : b ∈ l.filter p := by
    rw [h]
    exact List.mem_singleton.mpr rfl
  exact List.of_mem_filter hmem

/-- `singleRow` yields a row only from a one-row result. -/
theorem singleRow_eq {α : Type} (l : List α) (b : α)
    (h : singleRow l = some b) : l = [b] := by
  match l with
  | [] => cases h
  | [b1] => cases h; rfl
  | b1 :: b2 :: rest => cases h

/-- C5: when the `to` number resolves to no active business, the event fails
and the store is returned unchanged; and the lookup never yields an inactive
business. -/
theorem C5_resolution_failure (env : Env) (db : DB) (w : WebhookEvent) :
    (findBusinessByPhoneNumber db w.to_number = none →
      (handleRetellWebhook env db w).1 = .error "Business not found for phone number"
      ∧ (handleRetellWebhook env db w).2 = db)
    ∧ (∀ b, findBusinessByPhoneNumber db w.to_number = some b → b.is_active = true) := by
  constructor
  · intro h
    unfold handleRetellWebhook
    rw [h]
    exact ⟨rfl, rfl⟩
  · intro b hb
    unfold findBusinessByPhoneNumber at hb
    split at hb
    · cases hb
    · have hfil := singleRow_eq _ _ hb
      have hp := filter_eq_single_pred _ _ _ hfil
      simp only [Bool.and_eq_true, beq_iff_eq] at hp
      exact hp.2

/-- C5 witness: a concrete event whose `to` number matches no business. -/
theorem C5_witness :
    (handleRetellWebhook env0 dbEmpty (mkBareEvent "c1" (some "call_started") (some "+15550000000"))).1
      = .error "Business not found for phone number"
    ∧ (handleRetellWebhook env0 dbEmpty (mkBareEvent "c1" (some "call_started") (some "+15550000000"))).2
      = dbEmpty :=
  (C5_resolution_failure env0 dbEmpty
    (mkBareEvent "c1" (some "call_started") (some "+15550000000"))).1 (by decide)

/-!  ## C10 — post-commit store failures are swallowed -/

/-- C10: the notification-outcome write and the analytics write always
return normally; when the store write fails the state is unchanged, and the
analytics write never touches call records or businesses. -/
theorem C10_post_commit_failures_swallowed (writeOk : Bool) (db : DB)
    (callId : String) (sent : Bool) (today bid : String) (completed : Bool)
    (et : Option String) :
    (∃ d, updateCallNotificationStatus writeOk db callId sent = .ok d)
    ∧ (writeOk = false → updateCallNotificationStatus writeOk db callId sent = .ok db)
    ∧ (∃ d, updateCallAnalytics writeOk today db bid completed et = .ok d
        ∧ d.calls = db.calls ∧ d.businesses = db.businesses)
    ∧ (writeOk = false → updateCallAnalytics writeOk today db bid completed et = .ok db) := by
  refine ⟨?_, ?_, ?_, ?_⟩
  · cases writeOk <;> exact ⟨_, rfl⟩
  · intro hw; subst hw; rfl
  · unfold updateCallAnalytics
    cases h : db.analytics (bid, today) <;> cases writeOk <;>
      simp only [h, if_true, if_false, Bool.false_eq_true] <;> exact ⟨_, rfl, rfl, rfl⟩
  · intro hw; subst hw
    unfold updateCallAnalytics
    cases h : db.analytics (bid, today) <;> simp [h]

/-- C10 witness: both operations at a failing store write on a concrete
state. -/
theorem C10_witness :
    updateCallNotificationStatus false dbEmpty "c1" true = .ok dbEmpty
    ∧ updateCallAnalytics false "2026-01-01" dbEmpty "b1" true none = .ok dbEmpty :=
  ⟨(C10_post_commit_failures_swallowed false dbEmpty "c1" true "2026-01-01" "b1" true none).2.1 rfl,
   (C10_post_commit_failures_swallowed false dbEmpty "c1" true "2026-01-01" "b1" true none).2.2.2 rfl⟩

/-!  ## C1 — a stale Started event and the status machine -/

/-- The analytics update never modifies call records. -/
theorem analytics_preserves_calls (ok : Bool) (today : String) (db : DB)
    (bid : String) (c : Bool) (et : Option String) :
    (runOk db (updateCallAnalytics ok today db bid c et)).calls = db.calls := by
  unfold updateCallAnalytics runOk
  cases h : db.analytics (bid, today) <;> cases ok <;> simp [h]

/-- A completed call record for call id `c1` of business `b1`. -/
def recCompleted : CallRecord :=
  { id := "c1", business_id := "b1", caller_name := none, callback_number := none,
    address := none, reason := none, call_summary := none, recording_url := none,
    transcript_text := none, duration := 0, call_status := some "completed",
    from_number := none, to_number := none, cost := 0, notification_sent := false }

/-- Store holding `biz0` and the completed record for `c1`. -/
def dbCompleted : DB :=
  { businesses := [biz0],
    calls := fun i => if i = "c1" then some recCompleted else none,
    analytics := fun _ => none }

/-- C1 counterexample: a Started event delivered after the record reached
the terminal status `completed` flips the status back to `in-progress`. -/
theorem C1_counterexample :
    ((dbCompleted.calls "c1").map (fun c => c.call_status)) = some (some "completed")
    ∧ exceptOk (handleRetellWebhook env0 dbCompleted
        (mkBareEvent "c1" (some "call_started") (some "+15551234567"))).1 = true
    ∧ (((handleRetellWebhook env0 dbCompleted
          (mkBareEvent "c1" (some "call_started") (some "+15551234567"))).2.calls "c1").map
        (fun c => c.call_status)) = some (some "in-progress") := by
  refine ⟨by decide, by decide, by decide⟩

/-- C1 (amended): processing a Started event always leaves the record of its
call id with status `in-progress` — the upsert overwrites the status
unconditionally, so a stale Started delivery does revert a terminal
status. -/
theorem C1_started_sets_in_progress (env : Env) (db : DB) (w : WebhookEvent) (b : Business) :
    (((handleCallStarted env db w b).2.calls w.call_id).map (fun c => c.call_status))
      = some (some "in-progress") := by
  unfold handleCallStarted createOrUpdateCall
  cases h : db.calls w.call_id <;>
    simp [h, analytics_preserves_calls, applyCallData, newCallRecord, mkCallData]

/-!  ## C3 — analytics counters -/

/-- The upsert never modifies analytics rows. -/
theorem upsert_preserves_analytics (db : DB) (w : WebhookEvent) (bid : String)
    (info : ExtractedInfo) (st : Option String) :
    (createOrUpdateCall db w bid info st).2.analytics = db.analytics := by
  unfold createOrUpdateCall
  cases h : db.calls w.call_id <;> simp [h]

/-- The notification-outcome write never modifies analytics rows. -/
theorem notifStatus_preserves_analytics (ok : Bool) (db : DB) (cid : String) (sent : Bool) :
    (runOk db (updateCallNotificationStatus ok db cid sent)).analytics = db.analytics := by
  cases ok <;> rfl

/-- The status-only update never modifies analytics rows. -/
theorem updateCallStatus_analytics (db : DB) (cid st : String) (rd : CallRecord × DB)
    (h : updateCallStatus db cid st = .ok rd) : rd.2.analytics = db.analytics := by
  unfold updateCallStatus at h
  revert h
  cases db.calls cid with
  | none => intro h; cases h
  | some c => intro h; cases h; rfl

/-- How one successful analytics write changes the counter map, keyed by
`(business_id, today)`: `total_calls + 1`, `successful_notifications + 1`
exactly for event type `completed`, `failed_notifications` untouched; a
fresh row starts at `(1, 1, 0)` for `completed` and `(1, 0, 1)` otherwise. -/
def analyticsStep (A : String × String → Option AnalyticsRow) (bid today : String)
    (isCompleted : Bool) : String × String → Option AnalyticsRow :=
  fun k =>
    if k = (bid, today) then
      match A (bid, today) with
      | some row =>
        some { row with
               total_calls := row.total_calls + 1,
               successful_notifications :=
                 row.successful_notifications + (if isCompleted then 1 else 0) }
      | none =>
        some { business_id := bid, date := today, total_calls := 1,
               successful_notifications := if isCompleted then 1 else 0,
               failed_notifications := if isCompleted then 0 else 1 }
    else A k

/-- A successful analytics write realizes `analyticsStep`. -/
theorem updateCallAnalytics_char (today : String) (db : DB) (bid : String)
    (c : Bool) (et : Option String) :
    (runOk db (updateCallAnalytics true today db bid c et)).analytics
      = analyticsStep db.analytics bid today (et == some "completed") := by
  funext k
  unfold updateCallAnalytics runOk analyticsStep
  cases h : db.analytics (bid, today) <;>
    by_cases he : et = some "completed" <;>
      simp [h, he]

/-- Analytics row for `b1` on the fixed date with three calls counted. -/
def rowThree : AnalyticsRow :=
  { business_id := "b1", date := "2026-01-01", total_calls := 3,
    successful_notifications := 1, failed_notifications := 0 }

/-- Store with `biz0`, no calls, and the existing analytics row. -/
def dbRowThree : DB :=
  { businesses := [biz0], calls := fun _ => none,
    analytics := fun k => if k = ("b1", "2026-01-01") then some rowThree else none }

/-- Store with `biz0` and empty analytics. -/
def dbNoAnalytics : DB :=
  { businesses := [biz0], calls := fun _ => none, analytics := fun _ => none }

/-- C3 counterexample: a successfully processed Analyzed event leaves
`total_calls` unchanged (the handler never updates analytics), and a Started
event creating the first row of the day sets `failed_notifications` to 1
although it carries no completion outcome. -/
theorem C3_counterexample :
    exceptOk (handleRetellWebhook env0 dbRowThree
      (mkBareEvent "c2" (some "call_analyzed") (some "+15551234567"))).1 = true
    ∧ (handleRetellWebhook env0 dbRowThree
        (mkBareEvent "c2" (some "call_analyzed") (some "+15551234567"))).2.analytics
        ("b1", "2026-01-01") = some rowThree
    ∧ exceptOk (handleRetellWebhook env0 dbNoAnalytics
        (mkBareEvent "c3" (some "call_started") (some "+15551234567"))).1 = true
    ∧ (handleRetellWebhook env0 dbNoAnalytics
        (mkBareEvent "c3" (some "call_started") (some "+15551234567"))).2.analytics
        ("b1", "2026-01-01")
        = some { business_id := "b1", date := "2026-01-01", total_calls := 1,
                 successful_notifications := 0, failed_notifications := 1 } := by
  refine ⟨by decide, by decide, by decide, by decide⟩

/-- The Analyzed handler never touches analytics. -/
theorem analyzed_preserves_analytics (env : Env) (db : DB) (w : WebhookEvent) (b : Business) :
    (handleCallAnalyzed env db w b).2.analytics = db.analytics := by
  unfold handleCallAnalyzed
  by_cases ht : isTruthy (analyzedInfo w).call_summary <;>
    simp [ht, notifStatus_preserves_analytics, upsert_preserves_analytics]

/-- C3 (amended): with a succeeding analytics write, a successfully
processed Started, Ended or Legacy event applies exactly one `analyticsStep`
to the `(business_id, today)` row — `total_calls + 1`, with
`successful_notifications` incremented exactly for Ended events and
`failed_notifications` set to 1 when the first row of the day is created by
a non-Ended event — while an Analyzed event leaves analytics unchanged. -/
theorem C3_analytics_characterization (env : Env) (db : DB) (w : WebhookEvent) (b : Business)
    (hb : findBusinessByPhoneNumber db w.to_number = some b)
    (hw : env.analyticsWriteOk = true)
    (hs : exceptOk (handleRetellWebhook env db w).1 = true) :
    (handleRetellWebhook env db w).2.analytics =
      if w.event_type = some "call_analyzed" then db.analytics
      else analyticsStep db.analytics b.id env.today (w.event_type == some "call_ended") := by
  unfold handleRetellWebhook at hs ⊢
  simp only [hb] at hs ⊢
  split at hs
  · rename_i hev
    simp only [hev, handleCallStarted, hw]
    rw [updateCallAnalytics_char, upsert_preserves_analytics]
    simp
  · rename_i hev
    simp only [hev] at hs ⊢
    cases hE : handleCallEnded env db w b with
    | error e => rw [hE] at hs; cases hs
    | ok rd =>
      unfold handleCallEnded at hE
      revert hE
      cases hU : updateCallStatus db w.call_id "completed" with
      | error e => intro hE; cases hE
      | ok rd0 =>
        intro hE
        cases hE
        simp only [hw]
        rw [updateCallAnalytics_char, updateCallStatus_analytics db w.call_id "completed" rd0 hU]
        simp
  · rename_i hev
    simp only [hev, analyzed_preserves_analytics]
    simp
  · rename_i h1 h2 h3
    have hne3 : ¬ w.event_type = some "call_analyzed" := fun hh => h3 hh
    have hbeq2 : (w.event_type == some "call_ended") = false :=
      beq_eq_false_iff_ne.mpr (fun hh => h2 hh)
    simp only [handleLegacyWebhook, hw]
    rw [updateCallAnalytics_char]
    rw [if_neg hne3, hbeq2]
    by_cases hc : (w.call_status == some "completed") = true
    · rw [if_pos hc, notifStatus_preserves_analytics, upsert_preserves_analytics]
      rfl
    · rw [if_neg hc, upsert_preserves_analytics]
      rfl

/-- C3 witness: the characterization applied to a concrete Analyzed event
over the store holding the three-call analytics row. -/
theorem C3_witness :
    (handleRetellWebhook env0 dbRowThree
      (mkBareEvent "c2" (some "call_analyzed") (some "+15551234567"))).2.analytics =
      if (mkBareEvent "c2" (some "call_analyzed") (some "+15551234567")).event_type
          = some "call_analyzed" then dbRowThree.analytics
      else analyticsStep dbRowThree.analytics biz0.id env0.today
        ((mkBareEvent "c2" (some "call_analyzed") (some "+15551234567")).event_type
          == some "call_ended") :=
  C3_analytics_characterization env0 dbRowThree
    (mkBareEvent "c2" (some "call_analyzed") (some "+15551234567")) biz0
    (by decide) rfl (by decide)

/-!  ## C9 — phone extraction soundness -/

/-- Every value produced by the phone pattern loop comes from a capture of
one of the listed patterns whose digit count lies in `[7, 15]`, canonically
formatted. -/
theorem phoneFromPatterns_sound (ps : List RE) (t r : String)
    (h : phoneFromPatterns ps t = some r) :
    ∃ p ∈ ps, ∃ m, jsMatch1 p t = some m
      ∧ 7 ≤ (stripNonDigits m).length ∧ (stripNonDigits m).length ≤ 15
      ∧ r = formatPhoneNumber (stripNonDigits m) := by
  induction ps with
  | nil => simp [phoneFromPatterns] at h
  | cons p ps ih =>
    unfold phoneFromPatterns at h
    cases hm : jsMatch1 p t with
    | none =>
      simp only [hm] at h
      obtain ⟨q, hq, rest⟩ := ih h
      exact ⟨q, List.mem_cons_of_mem p hq, rest⟩
    | some m1 =>
      simp only [hm] at h
      by_cases hne : m1 ≠ ""
      · rw [if_pos hne] at h
        by_cases hlen : (7 ≤ (stripNonDigits m1).length && (stripNonDigits m1).length ≤ 15) = true
        · rw [if_pos hlen] at h
          cases h
          simp only [Bool.and_eq_true, decide_eq_true_eq] at hlen
          exact ⟨p, List.mem_cons_self p ps, m1, hm, hlen.1, hlen.2, rfl⟩
        · rw [if_neg hlen] at h
          obtain ⟨q, hq, rest⟩ := ih h
          exact ⟨q, List.mem_cons_of_mem p hq, rest⟩
      · rw [if_neg hne] at h
        obtain ⟨q, hq, rest⟩ := ih h
        exact ⟨q, List.mem_cons_of_mem p hq, rest⟩

/-- C9: `extractPhoneNumber` returns a value only when some intent-phrase
pattern captures a run with 7-15 digits, formatted canonically; the two
concrete example transcripts both yield `+15551234567`. -/
theorem C9_phone_soundness :
    (∀ t r, extractPhoneNumber t = some r →
      ∃ p ∈ phonePatterns, ∃ m, jsMatch1 p t = some m
        ∧ 7 ≤ (stripNonDigits m).length ∧ (stripNonDigits m).length ≤ 15
        ∧ r = formatPhoneNumber (stripNonDigits m))
    ∧ extractPhoneNumber "my number is 555-123-4567" = some "+15551234567"
    ∧ extractPhoneNumber "call me at (555) 123-4567" = some "+15551234567" :=
  ⟨fun t r h => phoneFromPatterns_sound phonePatterns t r h, by decide, by decide⟩

/-- C9 witness: the soundness statement applied at the first example
transcript. -/
theorem C9_witness :
    ∃ p ∈ phonePatterns, ∃ m, jsMatch1 p "my number is 555-123-4567" = some m
      ∧ 7 ≤ (stripNonDigits m).length ∧ (stripNonDigits m).length ≤ 15
      ∧ "+15551234567" = formatPhoneNumber (stripNonDigits m) :=
  C9_phone_soundness.1 "my number is 555-123-4567" "+15551234567" (by decide)

/-!  ## C7 — no recognizable pattern -/

/-- C7: when every field extractor returns null on the normalized
transcript, extraction returns all nulls with the fixed placeholder summary;
an absent / non-string / empty input yields the all-null result. -/
theorem C7_no_pattern_all_null (t : String) (ht : t ≠ "")
    (hn : extractName (normalizeText t) = none)
    (hp : extractPhoneNumber (normalizeText t) = none)
    (ha : extractAddress (normalizeText t) = none)
    (hr : extractReason (normalizeText t) = none) :
    extractCallInformation (some t) =
      { name := none, callback_number := none, address := none, reason := none,
        call_summary := some "Customer inquiry" }
    ∧ extractCallInformation none = allNullInfo
    ∧ extractCallInformation (some "") = allNullInfo := by
  refine ⟨?_, rfl, by decide⟩
  simp only [extractCallInformation, if_neg (fun hh => ht hh), hn, hp, ha, hr]
  rfl

/-- C7 witness: the transcript `hello` matches no extraction pattern. -/
theorem C7_witness :
    extractCallInformation (some "hello") =
      { name := none, callback_number := none, address := none, reason := none,
        call_summary := some "Customer inquiry" } :=
  (C7_no_pattern_all_null "hello" (by decide) (by decide) (by decide)
    (by decide) (by decide)).1

/-!  ## C2 — idempotence of the Analyzed step -/

/-- C2: processing an identical Analyzed event a second time (same payload,
same environment outcomes) leaves the call record keyed by the call id in
the same state as processing it once — the upsert overwrites the same
columns with the same extracted values and the notification outcome is
re-recorded identically. -/
theorem C2_analyzed_idempotent (env : Env) (db : DB) (w : WebhookEvent) (b : Business) :
    (handleCallAnalyzed env (handleCallAnalyzed env db w b).2 w b).2.calls w.call_id
      = (handleCallAnalyzed env db w b).2.calls w.call_id := by
  unfold handleCallAnalyzed createOrUpdateCall updateCallNotificationStatus notificationWrite runOk
  by_cases ht : isTruthy (analyzedInfo w).call_summary <;>
    by_cases hwk : env.notifWriteOk = true <;>
      cases h0 : db.calls w.call_id <;>
        simp [h0, ht, hwk, applyCallData, newCallRecord] <;>
          split_ifs <;> simp_all

/-- C1 witness: the amended statement at the concrete stale-Started
scenario. -/
theorem C1_witness :
    (((handleCallStarted env0 dbCompleted
        (mkBareEvent "c1" (some "call_started") (some "+15551234567")) biz0).2.calls "c1").map
      (fun c => c.call_status)) = some (some "in-progress") :=
  C1_started_sets_in_progress env0 dbCompleted
    (mkBareEvent "c1" (some "call_started") (some "+15551234567")) biz0

/-- C2 witness: idempotence at a concrete Analyzed redelivery. -/
theorem C2_witness :
    (handleCallAnalyzed env0
      (handleCallAnalyzed env0 dbCompleted
        (mkBareEvent "c1" (some "call_analyzed") (some "+15551234567")) biz0).2
      (mkBareEvent "c1" (some "call_analyzed") (some "+15551234567")) biz0).2.calls "c1"
    = (handleCallAnalyzed env0 dbCompleted
        (mkBareEvent "c1" (some "call_analyzed") (some "+15551234567")) biz0).2.calls "c1" :=
  C2_analyzed_idempotent env0 dbCompleted
    (mkBareEvent "c1" (some "call_analyzed") (some "+15551234567")) biz0
